import Mathlib

/-!
Shallow embedding of the rate-limited, retrying HTTP request core of
`src/data_collection/riot_api.py` (class `RateLimiter`, method
`RiotAPI._make_request`), together with the parameter building and result
post-processing of the endpoint methods `RiotAPI.get_match_ids` and
`RiotAPI.get_ranked_entries`.

Modelling conventions:

* Time is exact rational seconds.  `datetime.now()` reads an explicit clock
  value; `time.sleep(d)` advances the clock by `d`.  The limiter's
  `wait_if_needed` therefore takes the entry clock as an argument and returns
  the exit clock together with the two (possibly zero) sleep amounts.
* The HTTP transport of `requests.get` is a function from the attempt index
  (the 0-based loop variable of `for attempt in range(self.max_retries)`) to
  the outcome of that attempt: a response carrying status code, optional
  integer `Retry-After` header, parsed JSON body and raw text, or a
  `requests.exceptions.Timeout`, or another `requests.exceptions.RequestException`.
* A run of `_make_request` is summarised by its outcome (returned body or
  raised `RiotAPIError`), the list of `time.sleep` durations it performed in
  order, the number of HTTP attempts issued, and the `api_key` values written
  to the diagnostic log, plus the number of `RateLimiter.wait_if_needed`
  invocations.
-/

namespace RiotApiModel

/-- Shape of a parsed JSON body, as far as the endpoint methods inspect it:
`isinstance(result, list)` and `isinstance(result, dict)` are the only shape
tests performed, so arrays are flattened to lists of strings. -/
inductive Json where
  | arr (xs : List String)
  | obj (fields : List (String × String))
  | str (s : String)
  | num (n : ℤ)
  | null
deriving DecidableEq, Repr

/-- Python type name of a parsed JSON value, as `type(result)` reports it. -/
def Json.pyType : Json → String
  | .arr _ => "list"
  | .obj _ => "dict"
  | .str _ => "str"
  | .num _ => "int"
  | .null => "NoneType"

/-- Outcome of one `requests.get(url, ...)` call. -/
inductive HttpOutcome where
  | response (status : ℕ) (retryAfter : Option ℕ) (body : Json) (text : String)
  | timeout
  | reqError (msg : String)
deriving DecidableEq, Repr

/-- The distinct `RiotAPIError` raise sites of `riot_api.py`, tagged by the
data each message interpolates. -/
inductive RiotAPIError where
  | notFound (url : String)
  | forbidden (text : String)
  | unexpectedStatus (status : ℕ) (text : String)
  | timedOutAfterRetries
  | requestFailed (msg : String)
  | failedAfterAttempts (n : ℕ)
  | malformedMatchIds (ty : String)
deriving DecidableEq, Repr

/-- The message string each raise site formats. -/
def RiotAPIError.message : RiotAPIError → String
  | .notFound url => "Resource not found: " ++ url
  | .forbidden text => "Invalid API key or forbidden access. Response: " ++ text
  | .unexpectedStatus s text => "Unexpected status code " ++ toString s ++ ": " ++ text
  | .timedOutAfterRetries => "Request timed out after all retries"
  | .requestFailed m => "Request failed: " ++ m
  | .failedAfterAttempts n => "Failed after " ++ toString n ++ " attempts"
  | .malformedMatchIds ty => "Expected a list of match IDs, got: " ++ ty

deriving instance DecidableEq for Except

/-- Observable summary of one `_make_request` retry loop run. -/
structure CallTrace where
  result : Except RiotAPIError Json
  sleeps : List ℕ
  attempts : ℕ
  loggedKeys : List String
deriving DecidableEq, Repr

/-- The body of `for attempt in range(self.max_retries)` in
`RiotAPI._make_request`, one recursive step per remaining loop index.  The
status chain mirrors the source: `200` returns the parsed body, `404` and
`403` raise immediately (`403` additionally logs `self.api_key[:10]`),
`429` sleeps the `Retry-After` value (default `5`) and `continue`s, a status
`>= 500` sleeps `2 ** attempt` and `continue`s, any other status raises.
A `Timeout` sleeps `2 ** attempt` and `continue`s only while
`attempt < self.max_retries - 1`, otherwise raises; any other
`RequestException` raises.  Falling out of the loop raises the
`"Failed after ... attempts"` error. -/
def runAttempts (t : ℕ → HttpOutcome) (max_retries : ℕ) (api_key url : String) :
    List ℕ → CallTrace
  | [] => ⟨.error (.failedAfterAttempts max_retries), [], 0, []⟩
  | attempt :: rest =>
    match t attempt with
    | .response status retryAfter body text =>
      if status = 200 then
        ⟨.ok body, [], 1, []⟩
      else if status = 404 then
        ⟨.error (.notFound url), [], 1, []⟩
      else if status = 403 then
        ⟨.error (.forbidden text), [], 1, [(api_key.toList.take 10).asString]⟩
      else if status = 429 then
        let r := runAttempts t max_retries api_key url rest
        ⟨r.result, retryAfter.getD 5 :: r.sleeps, r.attempts + 1, r.loggedKeys⟩
      else if 500 ≤ status then
        let r := runAttempts t max_retries api_key url rest
        ⟨r.result, 2 ^ attempt :: r.sleeps, r.attempts + 1, r.loggedKeys⟩
      else
        ⟨.error (.unexpectedStatus status text), [], 1, []⟩
    | .timeout =>
      if attempt < max_retries - 1 then
        let r := runAttempts t max_retries api_key url rest
        ⟨r.result, 2 ^ attempt :: r.sleeps, r.attempts + 1, r.loggedKeys⟩
      else
        ⟨.error .timedOutAfterRetries, [], 1, []⟩
    | .reqError m => ⟨.error (.requestFailed m), [], 1, []⟩

/-- A full `_make_request` run: the limiter is consulted once, before the
retry loop (`if self.rate_limiter: self.rate_limiter.wait_if_needed()`),
then the loop runs over the attempt indices `range(max_retries)`. -/
structure RequestRun where
  trace : CallTrace
  limiterCalls : ℕ
deriving DecidableEq, Repr

/-- `RiotAPI._make_request`, parameterised by the transport. -/
def make_request (rate_limit : Bool) (max_retries : ℕ) (api_key url : String)
    (t : ℕ → HttpOutcome) : RequestRun :=
  ⟨runAttempts t max_retries api_key url (List.range max_retries),
   if rate_limit then 1 else 0⟩

/-- The query-parameter dictionary built by `RiotAPI.get_match_ids`:
`start` unchanged, `count` clamped with `min(count, 100)`, `queue` added only
when truthy (not `None` and nonzero), `type` added when not `None`. -/
def get_match_ids_params (start count : ℤ) (queue : Option ℤ) (type_ : Option ℤ) :
    List (String × ℤ) :=
  let params := [("start", start), ("count", min count 100)]
  let params :=
    match queue with
    | some q => if q ≠ 0 then params ++ [("queue", q)] else params
    | none => params
  match type_ with
  | some ty => params ++ [("type", ty)]
  | none => params

/-- Result handling of `RiotAPI.get_match_ids`: the dispatcher result is
returned when it is a list and otherwise re-raised as the
`"Expected a list of match IDs"` error; dispatcher errors propagate. -/
def get_match_ids (rate_limit : Bool) (max_retries : ℕ) (api_key url : String)
    (t : ℕ → HttpOutcome) : Except RiotAPIError (List String) :=
  match (make_request rate_limit max_retries api_key url t).trace.result with
  | .error e => .error e
  | .ok (.arr xs) => .ok xs
  | .ok body => .error (.malformedMatchIds body.pyType)

/-- Result of `RiotAPI.get_ranked_entries`, with the number of
`logger.warning` emissions of its shape-check branches. -/
structure RankedEntriesRun where
  result : Except RiotAPIError (List String)
  warnings : ℕ
deriving DecidableEq, Repr

/-- Result handling of `RiotAPI.get_ranked_entries`: a list result is
returned, a dict result is logged and replaced by `[]`, any other shape is
logged and replaced by `[]`; dispatcher errors propagate. -/
def get_ranked_entries (rate_limit : Bool) (max_retries : ℕ) (api_key url : String)
    (t : ℕ → HttpOutcome) : RankedEntriesRun :=
  match (make_request rate_limit max_retries api_key url t).trace.result with
  | .error e => ⟨.error e, 0⟩
  | .ok (.arr xs) => ⟨.ok xs, 0⟩
  | .ok (.obj _) => ⟨.ok [], 1⟩
  | .ok _ => ⟨.ok [], 1⟩

/-- State of class `RateLimiter`: the two caps and the two timestamp windows. -/
structure RateLimiter where
  requests_per_second : ℕ
  requests_per_2min : ℕ
  second_requests : List ℚ
  two_min_requests : List ℚ
deriving DecidableEq, Repr

/-- Observable summary of one `RateLimiter.wait_if_needed()` call: the new
limiter state, the clock value at exit (also the timestamp appended to both
windows), and the two sleep amounts (zero when the corresponding branch did
not sleep). -/
structure AcquireResult where
  state : RateLimiter
  exitClock : ℚ
  shortSleep : ℚ
  longSleep : ℚ
deriving DecidableEq, Repr

/-- `RateLimiter.wait_if_needed`, with the entry clock passed explicitly.
Mirrors the source line by line: read `now`, prune the 2-minute window to
entries strictly newer than `now - 120`, prune the 1-second window to entries
strictly newer than `now - 1`, sleep `1 - (now - second_requests[0])` when the
pruned 1-second window is at or over its cap and that amount is positive,
then sleep `120 - (now - two_min_requests[0])` when the pruned 2-minute window
is at or over its cap and that amount is positive (both waits are computed
from the same `now` read at entry), finally re-read the clock and append that
single timestamp to both windows. -/
def RateLimiter.wait_if_needed (s : RateLimiter) (clock : ℚ) : AcquireResult :=
  let now := clock
  let two_min_requests := s.two_min_requests.filter fun ts => decide (now - 120 < ts)
  let second_requests := s.second_requests.filter fun ts => decide (now - 1 < ts)
  let shortSleep : ℚ :=
    if s.requests_per_second ≤ second_requests.length then
      let sleep_time := 1 - (now - second_requests.headI)
      if 0 < sleep_time then sleep_time else 0
    else 0
  let longSleep : ℚ :=
    if s.requests_per_2min ≤ two_min_requests.length then
      let sleep_time := 120 - (now - two_min_requests.headI)
      if 0 < sleep_time then sleep_time else 0
    else 0
  let now2 := clock + shortSleep + longSleep
  ⟨⟨s.requests_per_second, s.requests_per_2min,
    second_requests ++ [now2], two_min_requests ++ [now2]⟩,
   now2, shortSleep, longSleep⟩

/-! ## Helper lemmas -/

/-- The trace of a `_make_request` run is the retry loop over
`range(max_retries)`. -/
theorem make_request_trace (rate_limit : Bool) (max_retries : ℕ)
    (api_key url : String) (t : ℕ → HttpOutcome) :
    (make_request rate_limit max_retries api_key url t).trace
      = runAttempts t max_retries api_key url (List.range max_retries) := rfl

/-- A transport that answers 429 on every attempt drives the loop through
every remaining index: each iteration sleeps the Retry-After value and
`continue`s, and the loop finally falls through to the
`"Failed after ... attempts"` raise. -/
theorem runAttempts_const_429 (t : ℕ → HttpOutcome) (max_retries : ℕ)
    (api_key url : String) (ra? : Option ℕ) (b : Json) (txt : String)
    (ht : ∀ i, t i = .response 429 ra? b txt) :
    ∀ l : List ℕ, runAttempts t max_retries api_key url l
      = ⟨.error (.failedAfterAttempts max_retries),
         List.replicate l.length (ra?.getD 5), l.length, []⟩ := by
  intro l
  induction l with
  | nil => rfl
  | cons a l ih =>
    simp [runAttempts, ht a, ih, List.replicate_succ]

/-- A transport that times out on every attempt: starting at index `j` with
`n + 1` indices left (and `j + n + 1 = max_retries`), the loop backs off
`2 ^ attempt` seconds after every non-final attempt and raises the timeout
error at the final one. -/
theorem runAttempts_const_timeout (t : ℕ → HttpOutcome) (max_retries : ℕ)
    (api_key url : String) (ht : ∀ i, t i = .timeout) :
    ∀ n j, j + n + 1 = max_retries →
      runAttempts t max_retries api_key url (List.range' j (n + 1))
        = ⟨.error .timedOutAfterRetries, (List.range' j n).map (fun a => 2 ^ a),
           n + 1, []⟩ := by
  intro n
  induction n with
  | zero =>
    intro j hj
    have hlt : ¬ j < max_retries - 1 := by omega
    simp [List.range'_succ, runAttempts, ht j, hlt]
  | succ n ih =>
    intro j hj
    have hlt : j < max_retries - 1 := by omega
    have hih := ih (j + 1) (by omega)
    have hmap : (List.range' j (n + 1)).map (fun a => 2 ^ a)
        = 2 ^ j :: (List.range' (j + 1) n).map (fun a => 2 ^ a) := by
      rw [List.range'_succ]; rfl
    rw [List.range'_succ, hmap]
    generalize List.range' (j + 1) (n + 1) = R at hih ⊢
    simp only [runAttempts, ht j, if_pos hlt, hih]

/-- The retry loop's outcome, sleeps and attempt count do not depend on the
API key: only the diagnostic log does. -/
theorem runAttempts_key_invariant (t : ℕ → HttpOutcome) (max_retries : ℕ)
    (k₁ k₂ url : String) :
    ∀ l : List ℕ,
      (runAttempts t max_retries k₁ url l).result
          = (runAttempts t max_retries k₂ url l).result
      ∧ (runAttempts t max_retries k₁ url l).sleeps
          = (runAttempts t max_retries k₂ url l).sleeps
      ∧ (runAttempts t max_retries k₁ url l).attempts
          = (runAttempts t max_retries k₂ url l).attempts := by
  intro l
  induction l with
  | nil => exact ⟨rfl, rfl, rfl⟩
  | cons a l ih =>
    obtain ⟨ih₁, ih₂, ih₃⟩ := ih
    cases ht : t a with
    | response status ra b txt =>
      simp only [runAttempts, ht]
      split_ifs <;> simp [ih₁, ih₂, ih₃]
    | timeout =>
      simp only [runAttempts, ht]
      split_ifs <;> simp [ih₁, ih₂, ih₃]
    | reqError m => simp [runAttempts, ht]

/-- Every API-key string recorded in the retry loop's diagnostic log is the
ten-character truncation `api_key[:10]`. -/
theorem runAttempts_loggedKeys (t : ℕ → HttpOutcome) (max_retries : ℕ)
    (api_key url : String) :
    ∀ l : List ℕ, ∀ lk ∈ (runAttempts t max_retries api_key url l).loggedKeys,
      lk = (api_key.toList.take 10).asString := by
  intro l
  induction l with
  | nil => intro lk hlk; simp [runAttempts] at hlk
  | cons a l ih =>
    intro lk hlk
    cases ht : t a with
    | response status ra b txt =>
      simp only [runAttempts, ht] at hlk
      split_ifs at hlk
      all_goals first
        | exact ih lk hlk
        | simp_all
    | timeout =>
      simp only [runAttempts, ht] at hlk
      split_ifs at hlk
      all_goals first
        | exact ih lk hlk
        | simp_all
    | reqError m => simp [runAttempts, ht] at hlk

/-! ## C1: handling of HTTP status 429 -/

/-- C1 counterexample: a 429 response does consume the retry budget.  With
`max_retries = 1` and a transport answering 429 (with `Retry-After: 3`) on the
first attempt and 200 afterwards, the call never reaches the 200: the
`continue` after the 429 sleep advances the loop index past the budget and
the call raises `"Failed after 1 attempts"` (after one attempt and the one
Retry-After sleep) instead of returning the final body, contradicting the
claim that 429 re-enters the send state with the same attempt count,
unbounded by `maxRetries`. -/
theorem c1_429_counterexample :
    (make_request false 1 "RGAPI-key" "https://example"
      (fun n => if n = 0 then .response 429 (some 3) .null ""
                else .response 200 none (.str "ok") "")).trace
      = ⟨.error (.failedAfterAttempts 1), [3], 1, []⟩ := by
  rfl

/-- C1 (amended): a 429 attempt sleeps the `Retry-After` header value when
present and 5 seconds when the header is absent, then retries, but the retry
consumes a retry-budget slot — the loop's `continue` advances the attempt
index — so 429 retries are bounded by `maxRetries`.  With a transport
returning 429 twice then 200 and `maxRetries = 3`, the call returns the final
parsed body after two sleeps of the Retry-After value (or of the default 5
when the header is absent), having consumed two retry-budget slots
(3 attempts); and a transport returning 429 on every attempt terminates with
the `"Failed after maxRetries attempts"` error after exactly `maxRetries`
attempts, one Retry-After-or-default sleep per attempt. -/
theorem c1_429_amended (ra? : Option ℕ) (b : Json) (k u : String) (m : ℕ) :
    (make_request false 3 k u
        (fun n => if n < 2 then .response 429 ra? .null ""
                  else .response 200 none b "")).trace
      = ⟨.ok b, [ra?.getD 5, ra?.getD 5], 3, []⟩
    ∧ (make_request false 3 k u
        (fun n => if n < 2 then .response 429 none .null ""
                  else .response 200 none b "")).trace
      = ⟨.ok b, [5, 5], 3, []⟩
    ∧ (make_request false m k u (fun _ => .response 429 ra? .null "")).trace
      = ⟨.error (.failedAfterAttempts m), List.replicate m (ra?.getD 5), m, []⟩ := by
  refine ⟨rfl, rfl, ?_⟩
  rw [make_request_trace,
    runAttempts_const_429 _ m k u ra? .null "" (fun _ => rfl) (List.range m)]
  simp

/-! ## C2: when the rate limiter is consulted -/

/-- C2 counterexample: with rate limiting enabled and a transport returning
503 on every attempt (`maxRetries = 3`), the call performs 3 HTTP attempts
but invokes `RateLimiter.wait_if_needed` only once — the limiter is consulted
before the retry loop, not at the start of every attempt, contradicting the
claim that a call performing `n` attempts invokes the limiter `n` times. -/
theorem c2_limiter_counterexample :
    (make_request true 3 "k" "u" (fun _ => .response 503 none .null "")).trace.attempts = 3
    ∧ (make_request true 3 "k" "u" (fun _ => .response 503 none .null "")).limiterCalls = 1
    ∧ (make_request true 3 "k" "u" (fun _ => .response 503 none .null "")).limiterCalls
        ≠ (make_request true 3 "k" "u" (fun _ => .response 503 none .null "")).trace.attempts := by
  refine ⟨rfl, rfl, ?_⟩
  decide

/-- C2 (amended): with rate limiting enabled the dispatcher invokes
`RateLimiter.wait_if_needed` exactly once per logical call, before the first
attempt; re-entries into the send state after a retry do not consult the
limiter again, so a call performing `n` HTTP attempts still invokes the
limiter once (and zero times when rate limiting is disabled). -/
theorem c2_limiter_amended (m : ℕ) (k u : String) (t : ℕ → HttpOutcome) :
    (make_request true m k u t).limiterCalls = 1
    ∧ (make_request false m k u t).limiterCalls = 0 :=
  ⟨rfl, rfl⟩

/-! ## C3: server errors exhausting the retry budget -/

/-- C3 counterexample: with `maxRetries = 3` and a transport returning 503 on
every attempt, the backoff sleeps are `[1, 2, 4]`, not `[1, 2]` — the loop
also sleeps `2 ** 2 = 4` seconds after the third and final attempt before
falling out of the loop. -/
theorem c3_backoff_counterexample :
    (make_request false 3 "k" "u" (fun _ => .response 503 none .null "")).trace.sleeps
      = [1, 2, 4]
    ∧ (make_request false 3 "k" "u" (fun _ => .response 503 none .null "")).trace.sleeps
      ≠ [1, 2] := by
  refine ⟨rfl, ?_⟩
  decide

/-- C3 (amended): with `maxRetries = 3` and a transport returning any 5xx
status on every attempt, the dispatcher sleeps 1s, 2s and then 4s — the
exponential backoff also runs after the final attempt — and then fails with
the single terminal `"Failed after 3 attempts"` error after exactly 3
attempts. -/
theorem c3_backoff_amended (k u : String) (s : ℕ) (hs : 500 ≤ s) :
    (make_request false 3 k u (fun _ => .response s none .null "")).trace
      = ⟨.error (.failedAfterAttempts 3), [1, 2, 4], 3, []⟩ := by
  have h200 : ¬ s = 200 := by omega
  have h404 : ¬ s = 404 := by omega
  have h403 : ¬ s = 403 := by omega
  have h429 : ¬ s = 429 := by omega
  rw [make_request_trace]
  have hr : List.range 3 = [0, 1, 2] := rfl
  rw [hr]
  simp [runAttempts, h200, h404, h403, h429, hs]

/-- C3 witness: the amended statement at the concrete status 503. -/
theorem c3_backoff_amended_witness :
    500 ≤ 503
    ∧ (make_request false 3 "k" "u" (fun _ => .response 503 none .null "")).trace
      = ⟨.error (.failedAfterAttempts 3), [1, 2, 4], 3, []⟩ :=
  ⟨by decide, c3_backoff_amended "k" "u" 503 (by decide)⟩

/-! ## C4: propagation of structured errors and of shape mismatches -/

/-- C4 counterexample: `get_ranked_entries` does not surface a parsed
response of the wrong shape as an error.  With a transport returning 200 whose
parsed body is a dict, `get_ranked_entries` logs a warning and returns the
default value `[]` as a success, contradicting the claim that a mismatched
shape is surfaced by the endpoint method as an error and never converted into
a default value. -/
theorem c4_shape_counterexample :
    (get_ranked_entries false 1 "k" "u"
        (fun _ => .response 200 none (.obj []) "")).result = .ok []
    ∧ (get_ranked_entries false 1 "k" "u"
        (fun _ => .response 200 none (.obj []) "")).warnings = 1 :=
  ⟨rfl, rfl⟩

/-- C4 (amended): dispatcher errors propagate unchanged through both cited
endpoint methods, and `get_match_ids` surfaces a successfully parsed body
that is not a list as the `"Expected a list of match IDs"` error; but
`get_ranked_entries` instead converts any non-list body (dict or otherwise)
into the default value `[]` with a logged warning, never an error. -/
theorem c4_shape_amended (b : Json) (rl : Bool) (k u : String) :
    get_match_ids rl 3 k u (fun _ => .response 200 none b "")
      = (match b with
         | .arr xs => .ok xs
         | _ => .error (.malformedMatchIds b.pyType))
    ∧ (get_ranked_entries rl 3 k u (fun _ => .response 200 none b "")).result
      = (match b with
         | .arr xs => .ok xs
         | _ => .ok [])
    ∧ get_match_ids rl 3 k u (fun _ => .response 404 none .null "")
      = .error (.notFound u)
    ∧ (get_ranked_entries rl 3 k u (fun _ => .response 404 none .null "")).result
      = .error (.notFound u) := by
  cases b <;> exact ⟨rfl, rfl, rfl, rfl⟩

/-! ## C5: confidentiality of the API key on 403 -/

/-- C5: the outcome and the sleeps of a `_make_request` run do not depend on
the API key at all — in particular the `RiotAPIError` raised on a 403 carries
only the response text, never the credential — and every key value written to
the diagnostic log is exactly the ten-character truncation `api_key[:10]`,
whose length is at most 10. -/
theorem c5_forbidden_key_confidential (rl : Bool) (m : ℕ) (k₁ k₂ u : String)
    (t : ℕ → HttpOutcome) (lk : String)
    (hlk : lk ∈ (make_request rl m k₁ u t).trace.loggedKeys) :
    (make_request rl m k₁ u t).trace.result = (make_request rl m k₂ u t).trace.result
    ∧ (make_request rl m k₁ u t).trace.sleeps = (make_request rl m k₂ u t).trace.sleeps
    ∧ lk = (k₁.toList.take 10).asString
    ∧ lk.length ≤ 10 := by
  have hinv := runAttempts_key_invariant t m k₁ k₂ u (List.range m)
  rw [make_request_trace] at hlk
  have hkey := runAttempts_loggedKeys t m k₁ u (List.range m) lk hlk
  refine ⟨?_, ?_, hkey, ?_⟩
  · rw [make_request_trace, make_request_trace]; exact hinv.1
  · rw [make_request_trace, make_request_trace]; exact hinv.2.1
  · rw [hkey, List.length_asString]
    exact List.length_take_le _ _

/-- C5 witness: a 403 transport with a 16-character key logs exactly the
first 10 characters, and changing the key does not change the outcome. -/
theorem c5_forbidden_witness :
    "RGAPI-1234" ∈ (make_request false 1 "RGAPI-1234567890" "u"
        (fun _ => .response 403 none .null "denied")).trace.loggedKeys
    ∧ ((make_request false 1 "RGAPI-1234567890" "u"
          (fun _ => .response 403 none .null "denied")).trace.result
        = (make_request false 1 "short" "u"
          (fun _ => .response 403 none .null "denied")).trace.result
      ∧ (make_request false 1 "RGAPI-1234567890" "u"
          (fun _ => .response 403 none .null "denied")).trace.sleeps
        = (make_request false 1 "short" "u"
          (fun _ => .response 403 none .null "denied")).trace.sleeps
      ∧ "RGAPI-1234" = (("RGAPI-1234567890" : String).toList.take 10).asString
      ∧ ("RGAPI-1234" : String).length ≤ 10) :=
  ⟨by decide,
   c5_forbidden_key_confidential false 1 "RGAPI-1234567890" "short" "u"
     (fun _ => .response 403 none .null "denied") "RGAPI-1234" (by decide)⟩

/-! ## C8: timeouts exhausting the retry budget -/

/-- C8: when every attempt raises a network-level timeout, the dispatcher
sleeps `2 ^ attempt` seconds after each non-final attempt (attempts
`0 .. maxRetries - 2`), performs exactly `maxRetries` attempts, performs no
sleep after the final attempt, and raises the single terminal
`"Request timed out after all retries"` error. -/
theorem c8_timeout_retry_budget (m : ℕ) (hm : 1 ≤ m) (rl : Bool) (k u : String)
    (t : ℕ → HttpOutcome) (ht : ∀ i, t i = .timeout) :
    (make_request rl m k u t).trace
      = ⟨.error .timedOutAfterRetries, (List.range (m - 1)).map (fun a => 2 ^ a),
         m, []⟩ := by
  obtain ⟨n, rfl⟩ : ∃ n, m = n + 1 := ⟨m - 1, by omega⟩
  rw [make_request_trace, List.range_eq_range',
    runAttempts_const_timeout t (n + 1) k u ht n 0 (by omega)]
  simp [List.range_eq_range']

/-- C8 witness: the timeout behaviour at `maxRetries = 3`: sleeps
`[2 ^ 0, 2 ^ 1]`, 3 attempts, terminal timeout error. -/
theorem c8_timeout_witness :
    1 ≤ 3
    ∧ (make_request false 3 "k" "u" (fun _ => .timeout)).trace
      = ⟨.error .timedOutAfterRetries, (List.range 2).map (fun a => 2 ^ a), 3, []⟩ :=
  ⟨by decide, c8_timeout_retry_budget 3 (by decide) false "k" "u" _ (fun _ => rfl)⟩

/-! ## C9: 404 is terminal and immediate -/

/-- C9: an attempt that receives HTTP 404 raises the `"Resource not found"`
error immediately: one attempt, no sleep, no retry, for every remaining
retry budget `maxRetries ≥ 1`. -/
theorem c9_not_found_immediate (m : ℕ) (hm : 1 ≤ m) (rl : Bool) (k u : String)
    (t : ℕ → HttpOutcome) (ra : Option ℕ) (b : Json) (txt : String)
    (h0 : t 0 = .response 404 ra b txt) :
    (make_request rl m k u t).trace = ⟨.error (.notFound u), [], 1, []⟩ := by
  obtain ⟨n, rfl⟩ : ∃ n, m = n + 1 := ⟨m - 1, by omega⟩
  rw [make_request_trace, List.range_eq_range', List.range'_succ]
  simp [runAttempts, h0]

/-- C9 witness: the 404 behaviour at `maxRetries = 3`. -/
theorem c9_not_found_witness :
    1 ≤ 3
    ∧ (fun _ : ℕ => HttpOutcome.response 404 none .null "nf") 0
        = HttpOutcome.response 404 none .null "nf"
    ∧ (make_request false 3 "k" "u" (fun _ => .response 404 none .null "nf")).trace
      = ⟨.error (.notFound "u"), [], 1, []⟩ :=
  ⟨by decide, rfl,
   c9_not_found_immediate 3 (by decide) false "k" "u" _ none .null "nf" rfl⟩

/-! ## C10: query parameters of get_match_ids -/

/-- C10: for every integer `count`, the `count` query parameter sent by
`get_match_ids` is `min(count, 100)` and the `start` parameter is passed
through unchanged, whatever the optional `queue` and `type` filters are. -/
theorem c10_match_ids_params_clamp (start count : ℤ) (queue type_ : Option ℤ) :
    (get_match_ids_params start count queue type_).lookup "count"
      = some (min count 100)
    ∧ (get_match_ids_params start count queue type_).lookup "start"
      = some start := by
  unfold get_match_ids_params
  cases queue with
  | none => cases type_ <;> simp [List.lookup]
  | some q => cases type_ <;> by_cases hq : q = 0 <;> simp [List.lookup, hq]

/-! ## C6: window pruning, fresh-timestamp append and monotonicity -/

/-- Both sleep amounts of a `wait_if_needed` call are nonnegative, so the
exit clock is at least the entry clock. -/
theorem wait_if_needed_clock_le (s : RateLimiter) (clock : ℚ) :
    clock ≤ (s.wait_if_needed clock).exitClock := by
  have hshort : 0 ≤ (s.wait_if_needed clock).shortSleep := by
    simp only [RateLimiter.wait_if_needed]
    split_ifs with h₁ h₂ <;> simp_all <;> linarith
  have hlong : 0 ≤ (s.wait_if_needed clock).longSleep := by
    simp only [RateLimiter.wait_if_needed]
    split_ifs with h₁ h₂ <;> simp_all <;> linarith
  have hexit : (s.wait_if_needed clock).exitClock
      = clock + (s.wait_if_needed clock).shortSleep
          + (s.wait_if_needed clock).longSleep := rfl
  rw [hexit]
  linarith

/-- C6: provided the two windows are sorted and hold only past timestamps,
a `wait_if_needed` call prunes them so that every retained old timestamp
lies within the last 1 second (short window) respectively the last 120
seconds (long window) of the entry instant, then appends the single re-read
exit-clock timestamp (which is at least the entry clock, i.e. read after any
sleeps) as the last element of both windows, and both windows remain
monotonically non-decreasing. -/
theorem c6_windows_invariant (s : RateLimiter) (clock : ℚ)
    (hs : List.Sorted (· ≤ ·) s.second_requests)
    (hl : List.Sorted (· ≤ ·) s.two_min_requests)
    (hps : ∀ ts ∈ s.second_requests, ts ≤ clock)
    (hpl : ∀ ts ∈ s.two_min_requests, ts ≤ clock) :
    (∀ ts ∈ ((s.wait_if_needed clock).state.second_requests).dropLast,
        clock - 1 < ts ∧ ts ≤ clock)
    ∧ (∀ ts ∈ ((s.wait_if_needed clock).state.two_min_requests).dropLast,
        clock - 120 < ts ∧ ts ≤ clock)
    ∧ clock ≤ (s.wait_if_needed clock).exitClock
    ∧ (s.wait_if_needed clock).state.second_requests.getLast?
        = some (s.wait_if_needed clock).exitClock
    ∧ (s.wait_if_needed clock).state.two_min_requests.getLast?
        = some (s.wait_if_needed clock).exitClock
    ∧ List.Sorted (· ≤ ·) (s.wait_if_needed clock).state.second_requests
    ∧ List.Sorted (· ≤ ·) (s.wait_if_needed clock).state.two_min_requests := by
  have hclock := wait_if_needed_clock_le s clock
  have hsec : (s.wait_if_needed clock).state.second_requests
      = (s.second_requests.filter fun ts => decide (clock - 1 < ts))
        ++ [(s.wait_if_needed clock).exitClock] := rfl
  have hmin : (s.wait_if_needed clock).state.two_min_requests
      = (s.two_min_requests.filter fun ts => decide (clock - 120 < ts))
        ++ [(s.wait_if_needed clock).exitClock] := rfl
  refine ⟨?_, ?_, hclock, ?_, ?_, ?_, ?_⟩
  · intro ts hts
    rw [hsec, List.dropLast_concat] at hts
    have := List.mem_filter.mp hts
    exact ⟨by simpa using this.2, hps ts this.1⟩
  · intro ts hts
    rw [hmin, List.dropLast_concat] at hts
    have := List.mem_filter.mp hts
    exact ⟨by simpa using this.2, hpl ts this.1⟩
  · rw [hsec, List.getLast?_concat]
  · rw [hmin, List.getLast?_concat]
  · rw [hsec]
    rw [List.Sorted, List.pairwise_append]
    refine ⟨hs.filter _, List.pairwise_singleton _ _, ?_⟩
    intro x hx y hy
    rw [List.mem_singleton] at hy
    subst hy
    exact le_trans (hps x (List.mem_of_mem_filter hx)) hclock
  · rw [hmin]
    rw [List.Sorted, List.pairwise_append]
    refine ⟨hl.filter _, List.pairwise_singleton _ _, ?_⟩
    intro x hx y hy
    rw [List.mem_singleton] at hy
    subst hy
    exact le_trans (hpl x (List.mem_of_mem_filter hx)) hclock

/-- C6 witness: a concrete limiter state with one half-second-old timestamp
in each window, observed at clock 1. -/
theorem c6_windows_witness :
    List.Sorted (· ≤ ·) (RateLimiter.mk 20 100 [(1 : ℚ)/2] [(1 : ℚ)/2]).second_requests
    ∧ List.Sorted (· ≤ ·) (RateLimiter.mk 20 100 [(1 : ℚ)/2] [(1 : ℚ)/2]).two_min_requests
    ∧ (∀ ts ∈ (RateLimiter.mk 20 100 [(1 : ℚ)/2] [(1 : ℚ)/2]).second_requests, ts ≤ 1)
    ∧ (∀ ts ∈ (RateLimiter.mk 20 100 [(1 : ℚ)/2] [(1 : ℚ)/2]).two_min_requests, ts ≤ 1)
    ∧ ((∀ ts ∈ (((RateLimiter.mk 20 100 [(1 : ℚ)/2] [(1 : ℚ)/2]).wait_if_needed 1).state.second_requests).dropLast,
          (1 : ℚ) - 1 < ts ∧ ts ≤ 1)
      ∧ (∀ ts ∈ (((RateLimiter.mk 20 100 [(1 : ℚ)/2] [(1 : ℚ)/2]).wait_if_needed 1).state.two_min_requests).dropLast,
          (1 : ℚ) - 120 < ts ∧ ts ≤ 1)
      ∧ (1 : ℚ) ≤ ((RateLimiter.mk 20 100 [(1 : ℚ)/2] [(1 : ℚ)/2]).wait_if_needed 1).exitClock
      ∧ ((RateLimiter.mk 20 100 [(1 : ℚ)/2] [(1 : ℚ)/2]).wait_if_needed 1).state.second_requests.getLast?
          = some ((RateLimiter.mk 20 100 [(1 : ℚ)/2] [(1 : ℚ)/2]).wait_if_needed 1).exitClock
      ∧ ((RateLimiter.mk 20 100 [(1 : ℚ)/2] [(1 : ℚ)/2]).wait_if_needed 1).state.two_min_requests.getLast?
          = some ((RateLimiter.mk 20 100 [(1 : ℚ)/2] [(1 : ℚ)/2]).wait_if_needed 1).exitClock
      ∧ List.Sorted (· ≤ ·) ((RateLimiter.mk 20 100 [(1 : ℚ)/2] [(1 : ℚ)/2]).wait_if_needed 1).state.second_requests
      ∧ List.Sorted (· ≤ ·) ((RateLimiter.mk 20 100 [(1 : ℚ)/2] [(1 : ℚ)/2]).wait_if_needed 1).state.two_min_requests) :=
  ⟨by simp, by simp, by norm_num, by norm_num,
   c6_windows_invariant (RateLimiter.mk 20 100 [(1 : ℚ)/2] [(1 : ℚ)/2]) 1
     (by simp) (by simp) (by norm_num) (by norm_num)⟩

/-! ## C7: the long-window wait uses the pre-sleep now -/

/-- C7: the long-window wait of `wait_if_needed` is
`120 - (now - two_min_requests[0])` computed from the `now` read at entry —
before the short-window sleep — and the current time is not recomputed
between the two window checks: the long-window sleep depends only on the
long window and its cap, so two states that agree on them produce the same
long-window sleep even when one incurs a short-window sleep and the other
does not. -/
theorem c7_long_wait_pre_sleep_now (s₁ s₂ : RateLimiter) (clock : ℚ)
    (h2 : s₁.two_min_requests = s₂.two_min_requests)
    (hc : s₁.requests_per_2min = s₂.requests_per_2min) :
    (s₁.wait_if_needed clock).longSleep = (s₂.wait_if_needed clock).longSleep
    ∧ (s₁.wait_if_needed clock).longSleep =
        (if s₁.requests_per_2min
            ≤ (s₁.two_min_requests.filter fun ts => decide (clock - 120 < ts)).length then
          (if 0 < 120 - (clock
                - (s₁.two_min_requests.filter fun ts => decide (clock - 120 < ts)).headI)
           then 120 - (clock
                - (s₁.two_min_requests.filter fun ts => decide (clock - 120 < ts)).headI)
           else 0)
         else 0) := by
  constructor
  · simp only [RateLimiter.wait_if_needed, h2, hc]
  · rfl

/-- C7 witness: two states sharing the long window `[0]` and long cap 1,
observed at clock 1; the first incurs a half-second short-window sleep, the
second does not, and both compute the same long-window wait of 119 seconds
from the pre-sleep now. -/
theorem c7_long_wait_witness :
    (RateLimiter.mk 1 1 [(1 : ℚ)/2] [0]).two_min_requests
      = (RateLimiter.mk 1 1 [] [0]).two_min_requests
    ∧ (RateLimiter.mk 1 1 [(1 : ℚ)/2] [0]).requests_per_2min
      = (RateLimiter.mk 1 1 [] [0]).requests_per_2min
    ∧ ((RateLimiter.mk 1 1 [(1 : ℚ)/2] [0]).wait_if_needed 1).shortSleep = 1/2
    ∧ ((RateLimiter.mk 1 1 [] [0]).wait_if_needed 1).shortSleep = 0
    ∧ (((RateLimiter.mk 1 1 [(1 : ℚ)/2] [0]).wait_if_needed 1).longSleep
        = ((RateLimiter.mk 1 1 [] [0]).wait_if_needed 1).longSleep
      ∧ ((RateLimiter.mk 1 1 [(1 : ℚ)/2] [0]).wait_if_needed 1).longSleep =
          (if (RateLimiter.mk 1 1 [(1 : ℚ)/2] [0]).requests_per_2min
              ≤ ((RateLimiter.mk 1 1 [(1 : ℚ)/2] [0]).two_min_requests.filter
                  fun ts => decide ((1 : ℚ) - 120 < ts)).length then
            (if 0 < 120 - ((1 : ℚ)
                  - ((RateLimiter.mk 1 1 [(1 : ℚ)/2] [0]).two_min_requests.filter
                      fun ts => decide ((1 : ℚ) - 120 < ts)).headI)
             then 120 - ((1 : ℚ)
                  - ((RateLimiter.mk 1 1 [(1 : ℚ)/2] [0]).two_min_requests.filter
                      fun ts => decide ((1 : ℚ) - 120 < ts)).headI)
             else 0)
           else 0)) :=
  ⟨rfl, rfl, by norm_num [RateLimiter.wait_if_needed],
   by norm_num [RateLimiter.wait_if_needed],
   c7_long_wait_pre_sleep_now (RateLimiter.mk 1 1 [(1 : ℚ)/2] [0])
     (RateLimiter.mk 1 1 [] [0]) 1 rfl rfl⟩

end RiotApiModel
